import Mathlib

/-!
Verification development for the signing core of the `solana-mobile` wallet
(`src/main.rs`, `src/mwa.rs`, `src/ffi.rs`).

The embedding models:
  * the wire codec used by the bridge-event consumer: base58 decoding
    (`bs58::decode`), the bincode/serde deserialization of
    `VersionedTransaction`, `Pubkey::from_str`, the 64-byte signature
    length check, and `bincode::serialize` of a `&str`;
  * the per-slot state (`WalletState`, `TransactionState`, `MessageState`)
    and the single-consumer event loop of `App` in `main.rs`, including the
    continuations the loop spawns (the transaction submission pipeline and
    the message-verification task), as an explicit small-step system;
  * `MwaWallet::sign_message` from `mwa.rs` and `send_msg_from_ffi` from
    `main.rs`.

External library primitives that perform I/O or cryptography (the ed25519
verification of `solana_sdk::signature::Signature::verify`, the RPC
`send_transaction` network outcome, the JNI dispatch) are modelled as
explicit parameters; everything else is translated from the source.
Bytes are modelled as `Nat` values below 256.
-/

set_option maxRecDepth 100000

deriving instance DecidableEq for Except

abbrev Bytes := List Nat

/-- Bitcoin base58 alphabet used by the `bs58` crate (its default). -/
def base58Alphabet : List Char :=
  "123456789ABCDEFGHJKLMNPQRSTUVWXYZabcdefghijkmnopqrstuvwxyz".toList

/-- Index of a character in a character list, if present. -/
def charIndex (c : Char) : List Char → Option Nat
  | [] => none
  | d :: ds => if d = c then some 0 else (charIndex c ds).map (· + 1)

/-- Accumulate the base58 digits of a string into the represented number,
erroring on a non-alphabet character exactly as `bs58::decode` does. -/
def bs58Digits : List Char → Nat → Except String Nat
  | [], acc => .ok acc
  | c :: cs, acc =>
    if 127 < c.toNat then
      .error "provided string contained a non-ascii character"
    else
      match charIndex c base58Alphabet with
      | none => .error ("provided string contained an invalid character " ++ String.singleton c)
      | some v => bs58Digits cs (acc * 58 + v)

/-- Little-endian base-256 digits of a natural number, structurally
recursive on a fuel bound (the number itself always suffices, since
division by 256 strictly decreases a positive number). -/
def natToBytesLEAux : Nat → Nat → Bytes
  | _, 0 => []
  | 0, _ + 1 => []
  | f + 1, n + 1 => ((n + 1) % 256) :: natToBytesLEAux f ((n + 1) / 256)

/-- Little-endian base-256 digits of a natural number; `[]` for zero,
no trailing zero digit otherwise (the canonical form maintained by the
`bs58` decode loop). -/
def natToBytesLE (n : Nat) : Bytes := natToBytesLEAux n n

/-- Number of leading zero characters of the alphabet (the character 1),
each of which `bs58::decode` turns into a leading zero byte. -/
def countLeadingOnes : List Char → Nat
  | [] => 0
  | c :: cs => if c = '1' then countLeadingOnes cs + 1 else 0

/-- Model of `bs58::decode(text).into_vec()`: the decoded big-endian bytes
of the base58 number, prefixed with one zero byte per leading 1 character;
an error on any character outside the alphabet. -/
def bs58Decode (s : String) : Except String Bytes :=
  match bs58Digits s.toList 0 with
  | .error e => .error e
  | .ok n => .ok (List.replicate (countLeadingOnes s.toList) 0 ++ (natToBytesLE n).reverse)

/-! ### Bincode deserialization of `VersionedTransaction`

Model of `bincode::deserialize::<VersionedTransaction>` as used at
`main.rs` line 132: serde with fixed-width integers, trailing bytes
allowed, `short_vec` length prefixes for the sequence fields, and the
version-tag byte of `VersionedMessage`. -/

abbrev ByteParser (α : Type) := Bytes → Except String (α × Bytes)

def pbind (p : ByteParser α) (f : α → ByteParser β) : ByteParser β := fun b =>
  match p b with
  | .error e => .error e
  | .ok (x, b1) => f x b1

def pret (x : α) : ByteParser α := fun b => .ok (x, b)

instance : Monad ByteParser where
  pure := pret
  bind := pbind

def takeByte : ByteParser Nat := fun b =>
  match b with
  | [] => .error "io error: failed to fill whole buffer"
  | x :: rest => .ok (x, rest)

def takeBytes (n : Nat) : ByteParser Bytes := fun b =>
  if b.length < n then .error "io error: failed to fill whole buffer"
  else .ok (b.take n, b.drop n)

/-- Model of the `solana_sdk::short_vec` ShortU16 length decoder: up to
three 7-bit groups, little-endian, rejecting a trailing zero continuation
byte (alias), a third byte with the continuation bit set, and a value that
would overflow a u16. -/
def decodeShortU16 : ByteParser Nat := fun b =>
  match b with
  | [] => .error "io error: failed to fill whole buffer"
  | b0 :: r0 =>
    if b0 < 128 then .ok (b0, r0)
    else
      match r0 with
      | [] => .error "io error: failed to fill whole buffer"
      | b1 :: r1 =>
        if b1 = 0 then .error "short_vec length alias encoding"
        else if b1 < 128 then .ok ((b0 % 128) + 128 * b1, r1)
        else
          match r1 with
          | [] => .error "io error: failed to fill whole buffer"
          | b2 :: r2 =>
            if b2 = 0 then .error "short_vec length alias encoding"
            else if 128 ≤ b2 then .error "short_vec length continues past three bytes"
            else if 4 ≤ b2 then .error "short_vec length overflows u16"
            else .ok ((b0 % 128) + 128 * (b1 % 128) + 16384 * b2, r2)

def decodeCount (p : ByteParser α) : Nat → ByteParser (List α)
  | 0 => pret []
  | n + 1 =>
    pbind p fun x =>
    pbind (decodeCount p n) fun xs =>
    pret (x :: xs)

/-- A `short_vec`-prefixed sequence: ShortU16 length, then that many elements. -/
def decodeShortVec (p : ByteParser α) : ByteParser (List α) :=
  pbind decodeShortU16 fun n => decodeCount p n

structure MessageHeader where
  numRequiredSignatures : Nat
  numReadonlySignedAccounts : Nat
  numReadonlyUnsignedAccounts : Nat
deriving DecidableEq

structure CompiledInstruction where
  programIdIndex : Nat
  accounts : List Nat
  data : List Nat
deriving DecidableEq

structure MessageAddressTableLookup where
  accountKey : Bytes
  writableIndexes : List Nat
  readonlyIndexes : List Nat
deriving DecidableEq

structure LegacyMessage where
  header : MessageHeader
  accountKeys : List Bytes
  recentBlockhash : Bytes
  instructions : List CompiledInstruction
deriving DecidableEq

structure MessageV0 where
  header : MessageHeader
  accountKeys : List Bytes
  recentBlockhash : Bytes
  instructions : List CompiledInstruction
  addressTableLookups : List MessageAddressTableLookup
deriving DecidableEq

inductive VersionedMessage where
  | legacy (m : LegacyMessage)
  | v0 (m : MessageV0)
deriving DecidableEq

structure VersionedTransaction where
  signatures : List Bytes
  message : VersionedMessage
deriving DecidableEq

def decodeCompiledInstruction : ByteParser CompiledInstruction :=
  pbind takeByte fun pix =>
  pbind (decodeShortVec takeByte) fun accts =>
  pbind (decodeShortVec takeByte) fun dat =>
  pret { programIdIndex := pix, accounts := accts, data := dat }

def decodeAddressTableLookup : ByteParser MessageAddressTableLookup :=
  pbind (takeBytes 32) fun key =>
  pbind (decodeShortVec takeByte) fun wr =>
  pbind (decodeShortVec takeByte) fun ro =>
  pret { accountKey := key, writableIndexes := wr, readonlyIndexes := ro }

/-- Remainder of a legacy `Message` once its first header byte (which doubled
as the version tag) has been read. -/
def decodeLegacyRest (numRequired : Nat) : ByteParser VersionedMessage :=
  pbind takeByte fun nross =>
  pbind takeByte fun nrous =>
  pbind (decodeShortVec (takeBytes 32)) fun keys =>
  pbind (takeBytes 32) fun bh =>
  pbind (decodeShortVec decodeCompiledInstruction) fun ixs =>
  pret (.legacy
    { header := ⟨numRequired, nross, nrous⟩
      accountKeys := keys
      recentBlockhash := bh
      instructions := ixs })

def decodeV0Rest : ByteParser VersionedMessage :=
  pbind takeByte fun nrs =>
  pbind takeByte fun nross =>
  pbind takeByte fun nrous =>
  pbind (decodeShortVec (takeBytes 32)) fun keys =>
  pbind (takeBytes 32) fun bh =>
  pbind (decodeShortVec decodeCompiledInstruction) fun ixs =>
  pbind (decodeShortVec decodeAddressTableLookup) fun atl =>
  pret (.v0
    { header := ⟨nrs, nross, nrous⟩
      accountKeys := keys
      recentBlockhash := bh
      instructions := ixs
      addressTableLookups := atl })

/-- Model of `VersionedMessage` deserialization: a tag byte whose high bit
distinguishes a versioned message (only version 0 is valid) from a legacy
message whose first header byte the tag byte already was. -/
def decodeVersionedMessage : ByteParser VersionedMessage :=
  pbind takeByte fun tagByte =>
  if tagByte < 128 then decodeLegacyRest tagByte
  else if tagByte % 128 = 0 then decodeV0Rest
  else fun _ => .error "invalid message version"

def decodeVersionedTransaction : ByteParser VersionedTransaction :=
  pbind (decodeShortVec (takeBytes 64)) fun sigs =>
  pbind decodeVersionedMessage fun msg =>
  pret { signatures := sigs, message := msg }

/-- The closure at `main.rs` lines 129 to 134: base58-decode the payload,
then bincode-deserialize a `VersionedTransaction` (trailing bytes allowed). -/
def decodeTransactionPayload (s : String) : Except String VersionedTransaction :=
  match bs58Decode s with
  | .error e => .error e
  | .ok bytes =>
    match decodeVersionedTransaction bytes with
    | .error e => .error e
    | .ok (tx, _) => .ok tx

/-- Model of `Pubkey::from_str` (`main.rs` line 124): at most 44 characters
of base58 which must decode to exactly 32 bytes. -/
def pubkeyFromStr (s : String) : Except String Bytes :=
  if 44 < s.length then .error "String is the wrong size"
  else
    match bs58Decode s with
    | .error _ => .error "Invalid Base58 string"
    | .ok bytes =>
      if bytes.length = 32 then .ok bytes else .error "String is the wrong size"

/-- The signature decode of `main.rs` lines 164 to 168: base58-decode, then
require exactly 64 bytes (`<[u8; 64]>::try_from`), with the error message of
the `anyhow` fallback. -/
def decodeSignatureText (s : String) : Except String Bytes :=
  match bs58Decode s with
  | .error e => .error e
  | .ok bytes =>
    if bytes.length = 64 then .ok bytes
    else .error "could not parse vec as byte array"

/-- Little-endian u64, as bincode writes a sequence length. -/
def u64le (n : Nat) : Bytes :=
  [n % 256, n / 256 % 256, n / 65536 % 256, n / 16777216 % 256,
   n / 4294967296 % 256, n / 1099511627776 % 256,
   n / 281474976710656 % 256, n / 72057594037927936 % 256]

/-- Model of `bincode::serialize(message.as_str())` (`main.rs` line 170):
an 8-byte little-endian length followed by the UTF-8 bytes. -/
def bincodeSerializeStr (s : String) : Bytes :=
  u64le s.utf8ByteSize ++ s.toUTF8.toList.map (fun b => b.toNat)

/-! ### The per-slot state and the event consumer of `App` (`main.rs`)

The consumer loop owns three reactive cells (`wallet_state`,
`transaction_state`, `message_state`) plus the USB status strings. Handling
one event may spawn an asynchronous continuation (`spawn(async move ...)`)
that mutates the cells later; continuations are kept as explicit pending
tasks whose remaining atomic segments are advanced by separate steps, so
arbitrary interleavings with later events can be expressed. -/

inductive WalletState where
  | None
  | Pubkey (k : Bytes)
deriving DecidableEq

inductive TransactionState where
  | None
  | WaitingForSignature
  | Signed (tx : VersionedTransaction)
  | Error (reason : String)
deriving DecidableEq

inductive MessageState where
  | None
  | WaitingForSignature (m : String)
  | Signed (m : String) (sig : Bytes)
  | Error (reason : String)
deriving DecidableEq

inductive MsgFromKotlin where
  | Pubkey (s : String)
  | SignedTransaction (s : String)
  | SignedMessage (s : String)
  | UsbDeviceList (s : String)
  | UsbPermissionResult (s : String)
  | UsbDeviceOpened (s : String)
  | UsbDeviceClosed (s : String)
  | UsbDataWritten (s : String)
  | UsbDataRead (s : String)
  | UsbError (s : String)
deriving DecidableEq

/-- The `tokio::time::sleep(Duration::from_secs(3))` settle pause of the
submission pipeline (`main.rs` line 141). -/
def settleDelaySecs : Nat := 3

/-- The `tokio::time::sleep(Duration::from_secs(3))` pause before a verified
message is recorded (`main.rs` line 176). -/
def msgSignedDelaySecs : Nat := 3

/-- Remaining segments of the continuation spawned for a decoded signed
transaction (`main.rs` lines 137 to 149): set `Signed`, sleep the settle
interval, then submit exactly once and fold the network outcome. -/
inductive TxTaskPhase where
  | setSigned
  | settling
  | submitting
deriving DecidableEq

structure TxTask where
  tx : VersionedTransaction
  phase : TxTaskPhase
deriving DecidableEq

/-- Remaining segments of the continuation spawned for a signed-message
event (`main.rs` lines 162 to 187): decode and verify, then (only on
success) sleep and record `Signed`. The captured signature text, message
text and wallet key are the values cloned when the event was consumed. -/
inductive MsgTaskPhase where
  | verifying
  | sleeping (sigBytes : Bytes)
deriving DecidableEq

structure MsgTask where
  signature : String
  message : String
  pubkey : Bytes
  phase : MsgTaskPhase
deriving DecidableEq

structure AppState where
  wallet : WalletState
  transaction : TransactionState
  message : MessageState
  usbDevices : String
  usbStatus : String
  clock : Nat
  pendingTxTasks : List TxTask
  pendingMsgTasks : List MsgTask
deriving DecidableEq

/-- The signals as initialized at the top of `App` (`main.rs` lines 103
to 115), with an explicit clock for the modelled sleeps. -/
def initialAppState : AppState :=
  { wallet := .None
    transaction := .None
    message := .None
    usbDevices := ""
    usbStatus := "Ready"
    clock := 0
    pendingTxTasks := []
    pendingMsgTasks := [] }

/-- One iteration of the consumer loop's `match msg` (`main.rs` lines 122
to 223): the synchronous effect of handling one received event, with any
spawned continuation appended to the pending tasks. -/
def consumeMsg (s : AppState) : MsgFromKotlin → AppState
  | .Pubkey base58 =>
    match pubkeyFromStr base58 with
    | .ok pk => { s with wallet := .Pubkey pk }
    | .error _ => s
  | .SignedTransaction base58 =>
    match decodeTransactionPayload base58 with
    | .ok tx => { s with pendingTxTasks := s.pendingTxTasks ++ [{ tx := tx, phase := .setSigned }] }
    | .error e => { s with transaction := .Error e }
  | .SignedMessage signature =>
    match s.message, s.wallet with
    | .WaitingForSignature m, .Pubkey pk =>
      { s with pendingMsgTasks :=
          s.pendingMsgTasks ++ [{ signature := signature, message := m, pubkey := pk, phase := .verifying }] }
    | _, _ => { s with message := .Error "no message available" }
  | .UsbDeviceList d => { s with usbDevices := d, usbStatus := "Device list updated" }
  | .UsbPermissionResult r => { s with usbStatus := "Permission: " ++ r }
  | .UsbDeviceOpened r => { s with usbStatus := "Device opened: " ++ r }
  | .UsbDeviceClosed r => { s with usbStatus := "Device closed: " ++ r }
  | .UsbDataWritten r => { s with usbStatus := "Data written: " ++ r }
  | .UsbDataRead r => { s with usbStatus := "Error: " ++ r }
  | .UsbError e => { s with usbStatus := "Error: " ++ e }

/-- Advance one segment of a pending transaction continuation. `net` is the
outcome `client.send_transaction(&tx).await` will report when the submitting
segment runs; it is unused by the earlier segments. Returns the updated
state and the task's continuation, if any remains. -/
def runTxTaskStep (t : TxTask) (net : Except String Unit) (s : AppState) :
    AppState × Option TxTask :=
  match t.phase with
  | .setSigned => ({ s with transaction := .Signed t.tx }, some { t with phase := .settling })
  | .settling =>
    ({ s with clock := s.clock + settleDelaySecs }, some { t with phase := .submitting })
  | .submitting =>
    match net with
    | .ok _ => ({ s with transaction := .None }, none)
    | .error e => ({ s with transaction := .Error e }, none)

/-- Advance one segment of a pending message continuation. `verify` is the
ed25519 primitive `Signature::verify(pubkey_bytes, message_bytes)`, taken as
a parameter (signature bytes, public-key bytes, message bytes). -/
def runMsgTaskStep (verify : Bytes → Bytes → Bytes → Bool) (t : MsgTask) (s : AppState) :
    AppState × Option MsgTask :=
  match t.phase with
  | .verifying =>
    match decodeSignatureText t.signature with
    | .error e => ({ s with message := .Error e }, none)
    | .ok sigBytes =>
      if verify sigBytes t.pubkey (bincodeSerializeStr t.message) then
        (s, some { t with phase := .sleeping sigBytes })
      else
        (s, none)
  | .sleeping sigBytes =>
    ({ s with clock := s.clock + msgSignedDelaySecs
              message := .Signed t.message sigBytes }, none)

/-- One step of the whole interleaved system: either the consumer loop
handles the next event, or a pending continuation runs its next segment. -/
inductive AppStep where
  | event (msg : MsgFromKotlin)
  | txTask (idx : Nat) (net : Except String Unit)
  | msgTask (idx : Nat)

def setTask (l : List α) (i : Nat) : Option α → List α
  | some t => l.set i t
  | none => l.eraseIdx i

def stepApp (verify : Bytes → Bytes → Bytes → Bool) (s : AppState) : AppStep → AppState
  | .event m => consumeMsg s m
  | .txTask i net =>
    match s.pendingTxTasks[i]? with
    | none => s
    | some t =>
      let r := runTxTaskStep t net s
      { r.1 with pendingTxTasks := setTask s.pendingTxTasks i r.2 }
  | .msgTask i =>
    match s.pendingMsgTasks[i]? with
    | none => s
    | some t =>
      let r := runMsgTaskStep verify t s
      { r.1 with pendingMsgTasks := setTask s.pendingMsgTasks i r.2 }

/-- The `Ok(bytes)` branch of the sign-transaction button (`main.rs` lines
287 to 291): dispatching a transaction-signing request sets the slot to
`WaitingForSignature` (the FFI initiation itself is host-side). -/
def dispatchSignTransaction (s : AppState) : AppState :=
  { s with transaction := .WaitingForSignature }

/-! ### `MwaWallet::sign_message` (`mwa.rs` lines 102 to 110)

The JNI dispatch `ffi::initiate_sign_message_from_dioxus` is modelled as a
parameter returning the host's status string; the function logs that status
and returns the placeholder error, never the signature. The returned pair
is (the status string obtained from the dispatch, the function's result). -/

def mwaSignMessage (dispatch : Bytes → String) (message : Bytes) :
    String × Except String Bytes :=
  let result := dispatch message
  (result, .error "MWA signing not yet implemented")

/-! ### `send_msg_from_ffi` (`main.rs` lines 46 to 50)

The `TX: OnceCell<Sender<MsgFromKotlin>>` half of the unbounded channel is
modelled as `Option (List MsgFromKotlin)`: `none` before `init_ipc_channel`
has run, `some queue` afterwards. `try_send` on an open unbounded channel
always succeeds; its result is discarded either way. -/

def send_msg_from_ffi (chan : Option (List MsgFromKotlin)) (msg : MsgFromKotlin) :
    Option (List MsgFromKotlin) :=
  match chan with
  | none => none
  | some q => some (q ++ [msg])

/-! ### Concrete values used by witnesses and counterexamples -/

/-- A string of `n` characters 1, the base58 spelling of `n` zero bytes. -/
def onesStr (n : Nat) : String := String.mk (List.replicate n '1')

/-- The transaction whose wire encoding is 38 zero bytes: no signatures and
an empty legacy message with an all-zero blockhash. -/
def txAllZeros : VersionedTransaction :=
  { signatures := []
    message := .legacy
      { header := ⟨0, 0, 0⟩
        accountKeys := []
        recentBlockhash := List.replicate 32 0
        instructions := [] } }

/-! ### Claim theorems -/

/-- C8: for every `Identity` (`Pubkey`) event, if the payload parses as a
base58 public key then `WalletIdentity` is set to it, and if the payload is
non-decodable the event is ignored with no state change at all. -/
theorem c8_identity_event (verify : Bytes → Bytes → Bytes → Bool) (s : AppState) (p : String) :
    (∀ pk, pubkeyFromStr p = .ok pk →
      stepApp verify s (.event (.Pubkey p)) = { s with wallet := .Pubkey pk }) ∧
    (∀ e, pubkeyFromStr p = .error e →
      stepApp verify s (.event (.Pubkey p)) = s) := by
  constructor
  · intro pk h
    simp [stepApp, consumeMsg, h]
  · intro e h
    simp [stepApp, consumeMsg, h]

/-- Witness for C8 at a decodable 32-zero-byte key and at the undecodable
payload 0. -/
theorem c8_witness :
    stepApp (fun _ _ _ => true) initialAppState (.event (.Pubkey (onesStr 32)))
      = { initialAppState with wallet := .Pubkey (List.replicate 32 0) } ∧
    stepApp (fun _ _ _ => true) initialAppState (.event (.Pubkey "0")) = initialAppState :=
  ⟨(c8_identity_event (fun _ _ _ => true) initialAppState (onesStr 32)).1
      (List.replicate 32 0) (by decide),
   (c8_identity_event (fun _ _ _ => true) initialAppState "0").2
      "Invalid Base58 string" (by decide)⟩

/-- C10: before `init_ipc_channel` has run the send is a silent drop that
returns normally; once the channel exists every send enqueues the message
at the tail of the (unbounded) queue. -/
theorem c10_send_before_and_after_init :
    (∀ m, send_msg_from_ffi none m = none) ∧
    (∀ q m, send_msg_from_ffi (some q) m = some (q ++ [m])) :=
  ⟨fun _ => rfl, fun _ _ => rfl⟩

/-- C9 counterexample: `MwaWallet::sign_message` never returns successfully;
at a concrete dispatched buffer the result is an error, so the claim that
the call returns successfully with an intermediate status string is false. -/
theorem c9_counterexample :
    ¬ ∃ sig, (mwaSignMessage (fun _ => "MWA signing initiated") [0, 1, 2]).2 = Except.ok sig := by
  intro h
  rcases h with ⟨sig, h⟩
  simp [mwaSignMessage] at h

/-- C9 (amended): for every byte buffer, `MwaWallet::sign_message` only
initiates the request through the FFI dispatch (whose status string it
logs) and returns immediately with the placeholder error
MWA signing not yet implemented; it never returns the signature itself and
never blocks awaiting the bridge result. -/
theorem c9_sign_message_initiates_then_errors (dispatch : Bytes → String) (message : Bytes) :
    mwaSignMessage dispatch message
      = (dispatch message, Except.error "MWA signing not yet implemented") := rfl

/-- C4: a `SignedMessage` event arriving when `MessageState` is not
`WaitingForSignature` or `WalletState` is not a connected key makes
`MessageState` become the error no message available (and the consumer,
a total function, does not crash). -/
theorem c4_signed_message_without_pending (verify : Bytes → Bytes → Bytes → Bool)
    (s : AppState) (t : String)
    (h : (∀ m, s.message ≠ MessageState.WaitingForSignature m) ∨
         (∀ k, s.wallet ≠ WalletState.Pubkey k)) :
    (stepApp verify s (.event (.SignedMessage t))).message = .Error "no message available" := by
  rcases s with ⟨w, txs, ms, ud, us, ck, ptt, pmt⟩
  cases ms with
  | WaitingForSignature m =>
    cases w with
    | Pubkey k =>
      rcases h with h | h
      · exact absurd rfl (h m)
      · exact absurd rfl (h k)
    | None => simp [stepApp, consumeMsg]
  | None => cases w <;> simp [stepApp, consumeMsg]
  | Signed m sg => cases w <;> simp [stepApp, consumeMsg]
  | Error e => cases w <;> simp [stepApp, consumeMsg]

/-- Witness for C4 at the initial state, where no message is pending. -/
theorem c4_witness :
    (stepApp (fun _ _ _ => true) initialAppState (.event (.SignedMessage "sig"))).message
      = .Error "no message available" :=
  c4_signed_message_without_pending (fun _ _ _ => true) initialAppState "sig"
    (Or.inl fun m h => by simp [initialAppState] at h)

/-- C5: the signature wire decode succeeds exactly when base58 decoding
succeeds with exactly 64 bytes; any other text makes the spawned
verification task fold the decode error into `MessageState.Error`
(no panic: every function involved is total). -/
theorem c5_signature_decode_length :
    (∀ t b, decodeSignatureText t = .ok b ↔ (bs58Decode t = .ok b ∧ b.length = 64)) ∧
    (∀ (verify : Bytes → Bytes → Bytes → Bool) (s : AppState) (t m : String) (pk : Bytes)
        (e : String),
      s.message = .WaitingForSignature m → s.wallet = .Pubkey pk →
      s.pendingMsgTasks = [] → decodeSignatureText t = .error e →
      (stepApp verify (stepApp verify s (.event (.SignedMessage t))) (.msgTask 0)).message
        = .Error e) := by
  constructor
  · intro t b
    unfold decodeSignatureText
    cases hd : bs58Decode t with
    | error e => simp
    | ok bytes =>
      by_cases hl : bytes.length = 64 <;> simp [hl] <;> rintro rfl <;> simp [hl]
  · intro verify s t m pk e hm hw hp hdec
    simp [stepApp, consumeMsg, hm, hw, hp, runMsgTaskStep, hdec, setTask]

/-- Witness for C5: a 64-zero-byte signature decodes, and the two-byte
payload 11 folds the length error into `MessageState.Error`. -/
theorem c5_witness :
    decodeSignatureText (onesStr 64) = .ok (List.replicate 64 0) ∧
    (stepApp (fun _ _ _ => true)
        (stepApp (fun _ _ _ => true)
          { initialAppState with
              message := .WaitingForSignature "hello world"
              wallet := .Pubkey (List.replicate 32 0) }
          (.event (.SignedMessage "11"))) (.msgTask 0)).message
      = .Error "could not parse vec as byte array" :=
  ⟨(c5_signature_decode_length.1 (onesStr 64) (List.replicate 64 0)).mpr
      ⟨by decide, by decide⟩,
   c5_signature_decode_length.2 (fun _ _ _ => true) _ "11" "hello world"
      (List.replicate 32 0) _ rfl rfl rfl (by decide)⟩

/-- C2: with a pending message `m` and a connected wallet key, a
`SignedMessage` event whose payload base58-decodes to exactly 64 bytes and
verifies over the dispatched byte encoding of `m` (the bincode string
serialization) makes `MessageState` become `Signed(m, signature_bytes)`
once the spawned verification task has run both its segments. -/
theorem c2_verified_message_becomes_signed (verify : Bytes → Bytes → Bytes → Bool)
    (s : AppState) (t m : String) (pk sigBytes : Bytes)
    (hm : s.message = .WaitingForSignature m) (hw : s.wallet = .Pubkey pk)
    (hp : s.pendingMsgTasks = [])
    (hdec : bs58Decode t = .ok sigBytes) (hlen : sigBytes.length = 64)
    (hver : verify sigBytes pk (bincodeSerializeStr m) = true) :
    (stepApp verify
      (stepApp verify (stepApp verify s (.event (.SignedMessage t))) (.msgTask 0))
      (.msgTask 0)).message = .Signed m sigBytes := by
  have hds : decodeSignatureText t = .ok sigBytes := by
    unfold decodeSignatureText
    rw [hdec]
    simp [hlen]
  simp [stepApp, consumeMsg, hm, hw, hp, runMsgTaskStep, hds, hver, setTask]

/-- Witness for C2 with the all-ones signature text, the all-zero key, and
a verifier that accepts. -/
theorem c2_witness :
    (stepApp (fun _ _ _ => true)
      (stepApp (fun _ _ _ => true)
        (stepApp (fun _ _ _ => true)
          { initialAppState with
              message := .WaitingForSignature "hello world"
              wallet := .Pubkey (List.replicate 32 0) }
          (.event (.SignedMessage (onesStr 64)))) (.msgTask 0))
      (.msgTask 0)).message = .Signed "hello world" (List.replicate 64 0) :=
  c2_verified_message_becomes_signed (fun _ _ _ => true) _ (onesStr 64) "hello world"
    (List.replicate 32 0) (List.replicate 64 0) rfl rfl rfl (by decide) (by decide) rfl

/-- C3: with the same setup but a signature that decodes to 64 bytes and
fails verification, the spawned task completes with `MessageState`
unchanged: it is still `WaitingForSignature m`, no error is recorded, and
no segment remains pending that could still change it. -/
theorem c3_failed_verification_silent (verify : Bytes → Bytes → Bytes → Bool)
    (s : AppState) (t m : String) (pk sigBytes : Bytes)
    (hm : s.message = .WaitingForSignature m) (hw : s.wallet = .Pubkey pk)
    (hp : s.pendingMsgTasks = [])
    (hdec : bs58Decode t = .ok sigBytes) (hlen : sigBytes.length = 64)
    (hver : verify sigBytes pk (bincodeSerializeStr m) = false) :
    (stepApp verify (stepApp verify s (.event (.SignedMessage t))) (.msgTask 0)).message
      = .WaitingForSignature m ∧
    (stepApp verify (stepApp verify s (.event (.SignedMessage t))) (.msgTask 0)).pendingMsgTasks
      = [] := by
  have hds : decodeSignatureText t = .ok sigBytes := by
    unfold decodeSignatureText
    rw [hdec]
    simp [hlen]
  constructor <;>
    simp [stepApp, consumeMsg, hm, hw, hp, runMsgTaskStep, hds, hver, setTask]

/-- Witness for C3 with a verifier that rejects everything. -/
theorem c3_witness :
    (stepApp (fun _ _ _ => false)
      (stepApp (fun _ _ _ => false)
        { initialAppState with
            message := .WaitingForSignature "hello world"
            wallet := .Pubkey (List.replicate 32 0) }
        (.event (.SignedMessage (onesStr 64)))) (.msgTask 0)).message
      = .WaitingForSignature "hello world" :=
  (c3_failed_verification_silent (fun _ _ _ => false) _ (onesStr 64) "hello world"
    (List.replicate 32 0) (List.replicate 64 0) rfl rfl rfl (by decide) (by decide) rfl).1

/-- C6: for a `SignedTransaction` event, a base58 or bincode decode failure
makes `TransactionState` become `Error(reason)` at once; on decode success
the event itself leaves the slot untouched and the spawned pipeline task
first sets `Signed(tx)`, which remains the observed state through the
settle wait until the submission runs — `TransactionState` has no
submitting variant, so no intermediate submitting state is ever observed. -/
theorem c6_transaction_event_decode (verify : Bytes → Bytes → Bytes → Bool)
    (s : AppState) (p : String) (hp : s.pendingTxTasks = []) :
    (∀ e, decodeTransactionPayload p = .error e →
      (stepApp verify s (.event (.SignedTransaction p))).transaction = .Error e) ∧
    (∀ tx, decodeTransactionPayload p = .ok tx →
      (stepApp verify s (.event (.SignedTransaction p))).transaction = s.transaction ∧
      (stepApp verify (stepApp verify s (.event (.SignedTransaction p)))
          (.txTask 0 (.ok ()))).transaction = .Signed tx ∧
      (stepApp verify (stepApp verify s (.event (.SignedTransaction p)))
          (.txTask 0 (.ok ()))).pendingTxTasks = [{ tx := tx, phase := .settling }] ∧
      (stepApp verify
          (stepApp verify (stepApp verify s (.event (.SignedTransaction p)))
            (.txTask 0 (.ok ())))
          (.txTask 0 (.ok ()))).transaction = .Signed tx ∧
      (stepApp verify
          (stepApp verify (stepApp verify s (.event (.SignedTransaction p)))
            (.txTask 0 (.ok ())))
          (.txTask 0 (.ok ()))).pendingTxTasks = [{ tx := tx, phase := .submitting }]) := by
  constructor
  · intro e h
    simp [stepApp, consumeMsg, h]
  · intro tx h
    refine ⟨?_, ?_, ?_, ?_, ?_⟩ <;>
      simp [stepApp, consumeMsg, h, hp, runTxTaskStep, setTask]

/-- Witness for C6: an undecodable payload 0 yields the error state, and
the 38-ones payload decodes and walks the pipeline phases while `Signed`. -/
theorem c6_witness :
    (stepApp (fun _ _ _ => true) initialAppState
       (.event (.SignedTransaction "0"))).transaction
      = .Error "provided string contained an invalid character 0" ∧
    (stepApp (fun _ _ _ => true)
       (stepApp (fun _ _ _ => true) initialAppState
         (.event (.SignedTransaction (onesStr 38))))
       (.txTask 0 (.ok ()))).transaction = .Signed txAllZeros :=
  ⟨(c6_transaction_event_decode (fun _ _ _ => true) initialAppState "0" rfl).1
      "provided string contained an invalid character 0" (by decide),
   ((c6_transaction_event_decode (fun _ _ _ => true) initialAppState (onesStr 38) rfl).2
      txAllZeros (by decide)).2.1⟩

/-- C7: once the submission task of a `Signed` transaction exists, its run
first sets `Signed(tx)`, then waits exactly the fixed settle interval, then
submits exactly once: success resets the slot to `None`, failure records
the endpoint's rejection reason, the task retires, and no task remains
that could retry, so any further task step is a no-op. -/
theorem c7_submission_pipeline (verify : Bytes → Bytes → Bytes → Bool)
    (s : AppState) (tx : VersionedTransaction) (net : Except String Unit)
    (hp : s.pendingTxTasks = [{ tx := tx, phase := .setSigned }]) :
    (stepApp verify s (.txTask 0 net)).transaction = .Signed tx ∧
    (stepApp verify (stepApp verify s (.txTask 0 net)) (.txTask 0 net)).clock
      = s.clock + settleDelaySecs ∧
    (stepApp verify (stepApp verify s (.txTask 0 net)) (.txTask 0 net)).transaction
      = .Signed tx ∧
    (net = .ok () →
      (stepApp verify (stepApp verify (stepApp verify s (.txTask 0 net)) (.txTask 0 net))
        (.txTask 0 net)).transaction = .None) ∧
    (∀ e, net = .error e →
      (stepApp verify (stepApp verify (stepApp verify s (.txTask 0 net)) (.txTask 0 net))
        (.txTask 0 net)).transaction = .Error e) ∧
    (stepApp verify (stepApp verify (stepApp verify s (.txTask 0 net)) (.txTask 0 net))
        (.txTask 0 net)).pendingTxTasks = [] ∧
    (∀ j net2,
      stepApp verify
        (stepApp verify (stepApp verify (stepApp verify s (.txTask 0 net)) (.txTask 0 net))
          (.txTask 0 net)) (.txTask j net2)
      = stepApp verify (stepApp verify (stepApp verify s (.txTask 0 net)) (.txTask 0 net))
          (.txTask 0 net)) := by
  refine ⟨?_, ?_, ?_, ?_, ?_, ?_, ?_⟩
  · simp [stepApp, hp, runTxTaskStep, setTask]
  · simp [stepApp, hp, runTxTaskStep, setTask]
  · simp [stepApp, hp, runTxTaskStep, setTask]
  · rintro rfl
    simp [stepApp, hp, runTxTaskStep, setTask]
  · rintro e rfl
    simp [stepApp, hp, runTxTaskStep, setTask]
  · cases net <;> simp [stepApp, hp, runTxTaskStep, setTask]
  · intro j net2
    cases net <;> simp [stepApp, hp, runTxTaskStep, setTask]

/-- Witness for C7 at a concrete failing submission. -/
theorem c7_witness :
    (stepApp (fun _ _ _ => true)
      (stepApp (fun _ _ _ => true)
        (stepApp (fun _ _ _ => true)
          { initialAppState with pendingTxTasks := [{ tx := txAllZeros, phase := .setSigned }] }
          (.txTask 0 (.error "blockhash expired"))) (.txTask 0 (.error "blockhash expired")))
      (.txTask 0 (.error "blockhash expired"))).transaction = .Error "blockhash expired" :=
  ((c7_submission_pipeline (fun _ _ _ => true) _ txAllZeros (.error "blockhash expired")
      rfl).2.2.2.2.1) "blockhash expired" rfl

/-- C1 counterexample: dispatch request A, supersede it with request B (the
slot reads `WaitingForSignature` for B), then let A's late
`SignedTransaction` result arrive. The consumer performs no correlation
check: it decodes the stale payload and the spawned task overwrites B's
state with `Signed(txA)` instead of discarding it. -/
theorem c1_counterexample :
    (dispatchSignTransaction (dispatchSignTransaction initialAppState)).transaction
      = TransactionState.WaitingForSignature ∧
    (stepApp (fun _ _ _ => true)
      (stepApp (fun _ _ _ => true)
        (dispatchSignTransaction (dispatchSignTransaction initialAppState))
        (.event (.SignedTransaction (onesStr 38))))
      (.txTask 0 (.ok ()))).transaction = TransactionState.Signed txAllZeros := by
  constructor
  · rfl
  · decide

/-- C1 (amended): the consumer has no staleness detection at all — handling
a `SignedTransaction` event never consults the current `TransactionState`
or any correlation token, so for EVERY prior state (in particular one
produced by a newer request B) a late decodable result overwrites the slot
with `Signed` of the stale transaction once its spawned task runs. -/
theorem c1_late_result_overwrites (verify : Bytes → Bytes → Bytes → Bool)
    (s : AppState) (p : String) (tx : VersionedTransaction)
    (hdec : decodeTransactionPayload p = .ok tx) (hp : s.pendingTxTasks = []) :
    (stepApp verify (stepApp verify s (.event (.SignedTransaction p)))
      (.txTask 0 (.ok ()))).transaction = .Signed tx := by
  simp [stepApp, consumeMsg, hdec, hp, runTxTaskStep, setTask]

/-- Witness for the amended C1 at the state request B produced. -/
theorem c1_witness :
    (stepApp (fun _ _ _ => true)
      (stepApp (fun _ _ _ => true) (dispatchSignTransaction initialAppState)
        (.event (.SignedTransaction (onesStr 38))))
      (.txTask 0 (.ok ()))).transaction = .Signed txAllZeros :=
  c1_late_result_overwrites (fun _ _ _ => true) (dispatchSignTransaction initialAppState)
    (onesStr 38) txAllZeros (by decide) rfl
